import Mathlib

/-!
Verification development for the protected swap execution pipeline of the
dex-api-library repository (Solana variants).

The embedding follows the two main source variants:
- `Part007` models `src/unnamed/part_007` (the documented MEV protection
  script, whose validator takes only the quote);
- `SwapMev` models `src/lib/solana/swap/solana-swap-mev.ts` (the variant
  whose validator also receives an expected output amount).

JavaScript numbers are modeled as rationals; all concrete values proved
about are exactly representable so the comparisons agree with the source.
A field that the source reads through `parseFloat` is modeled as the
parsed value, with `Option` capturing an absent field (`parseFloat` of an
absent field yields NaN, and every NaN comparison is false, which the
models reproduce case by case).
-/

namespace DexPipeline

/-- Token metadata extracted from the aggregator quote endpoint
(`OKXApi.getTokenInfo`, part_007 lines 274-316 and solana-swap-mev.ts
lines 208-250): symbol, decimal count, unit price and honeypot flag. -/
structure TokenInfo where
  symbol : String
  decimals : Nat
  price : ℚ
  isHoneyPot : Bool
  deriving DecidableEq, Repr

/-- Result of `OKXApi.getTokenInfo`: descriptors for both sides of the
trade. -/
structure SwapQuote where
  fromToken : TokenInfo
  toToken : TokenInfo
  deriving DecidableEq, Repr

/-- One entry of `routerResult.quoteCompareList`: a venue name and its
quoted output amount (`amountOut`, read through `parseFloat`). -/
structure QuoteCompare where
  dexName : String
  amountOut : ℚ
  deriving DecidableEq, Repr

/-- The aggregator `routerResult` object as consumed by the safety
validators: price impact percentage (absent field modeled as `none`),
the venue comparison list, and the quoted output amount. -/
structure RouterResult where
  priceImpactPercentage : Option ℚ
  quoteCompareList : List QuoteCompare
  toTokenAmount : ℚ
  deriving DecidableEq, Repr

/-- JavaScript `Math.max(...xs)` over a nonempty list (the sources only
call it after guarding the list nonempty; the empty case is unused). -/
def listMax : List ℚ → ℚ
  | [] => 0
  | h :: t => t.foldl max h

/-- Model of `convertAmount` (part_007 lines 485-491, solana-swap-mev.ts
lines 460-466). The CLI string has already passed through `parseFloat`:
`none` stands for NaN. The source throws on NaN or a nonpositive value,
otherwise returns `floor(value * 10^decimals)`. -/
def convertAmount (amount : Option ℚ) (decimals : Nat) : Except String Int :=
  match amount with
  | none => .error "Invalid amount"
  | some value =>
    if value ≤ 0 then .error "Invalid amount"
    else .ok ⌊value * (10 : ℚ) ^ decimals⌋

namespace Part007

/-- MEV_PROTECTION.MAX_PRICE_IMPACT in part_007 (line 95): 0.05. -/
def MAX_PRICE_IMPACT : ℚ := 5 / 100

/-- MEV_PROTECTION.MIN_ROUTE_SPLITS in part_007 (line 99). -/
def MIN_ROUTE_SPLITS : Nat := 2

/-- MEV_PROTECTION.MIN_PRIORITY_FEE in part_007 (line 103); declared in
the source configuration but never used by `getPriorityFee`. -/
def MIN_PRIORITY_FEE : ℚ := 10000

/-- MEV_PROTECTION.MAX_PRIORITY_FEE in part_007 (line 104). -/
def MAX_PRIORITY_FEE : ℚ := 1000000

/-- MEV_PROTECTION.PRIORITY_MULTIPLIER in part_007 (line 105). -/
def PRIORITY_MULTIPLIER : ℚ := 2

/-- The price impact gate of part_007 `validateSwapSafety` (lines
206-209): `parseFloat(routerResult.priceImpactPercentage) / 100 >
MAX_PRICE_IMPACT`. An absent field parses to NaN and the comparison is
then false, so the gate does not fire. -/
def priceImpactTooHigh (r : RouterResult) : Bool :=
  match r.priceImpactPercentage with
  | none => false
  | some p => decide (p / 100 > MAX_PRICE_IMPACT)

/-- Quote variance as computed in part_007 lines 218-221:
`|best - avg| / best` over the `amountOut` values. Used only for a
console warning (threshold 0.05), never for control flow. -/
def quoteVariance (r : RouterResult) : ℚ :=
  let quotes := r.quoteCompareList.map QuoteCompare.amountOut
  let bestQuote := listMax quotes
  let avgQuote := quotes.sum / (quotes.length : ℚ)
  |bestQuote - avgQuote| / bestQuote

/-- Model of part_007 `MEVProtection.validateSwapSafety` (lines 197-228).
Input is `quote.routerResult` (`none` when the field is missing, which
the source rejects as invalid quote data). Control flow: price impact
gate, then venue diversity gate (`quoteCompareList.length <
MIN_ROUTE_SPLITS`); the quote variance computation only warns. -/
def validateSwapSafety (quote : Option RouterResult) : Except String Unit :=
  match quote with
  | none => .error "Invalid quote data"
  | some r =>
    if priceImpactTooHigh r then
      .error "Sandwich attack risk: Price impact too high"
    else if r.quoteCompareList.length < MIN_ROUTE_SPLITS then
      .error "MEV risk: Insufficient route diversity"
    else
      .ok ()

/-- Model of part_007 / part_009 `getPriorityFee` (part_007 lines
464-481, part_009 lines 302-319): on an empty sample return the cap;
otherwise take the sample maximum and the ascending-sorted element at
index `floor(n / 2)` (the source median), form
`max(maxFee, medianFee * PRIORITY_MULTIPLIER)`, scale by 1.5 and cap at
MAX_PRIORITY_FEE. The fallback branch for an unavailable fee source also
returns MAX_PRIORITY_FEE. -/
def getPriorityFee (recentFees : List ℚ) : ℚ :=
  if recentFees.length = 0 then MAX_PRIORITY_FEE
  else
    let maxFee := listMax recentFees
    let sorted := List.insertionSort (· ≤ ·) recentFees
    let medianFee := sorted.getD (recentFees.length / 2) 0
    let baseFee := max maxFee (medianFee * PRIORITY_MULTIPLIER)
    min (baseFee * (3 / 2)) MAX_PRIORITY_FEE

end Part007

namespace SwapMev

/-- MEV_PROTECTION.MAX_PRICE_IMPACT_BPS in solana-swap-mev.ts (line 43). -/
def MAX_PRICE_IMPACT_BPS : ℚ := 150

/-- CONFIG.SLIPPAGE in solana-swap-mev.ts (line 76), parsed: 0.5. -/
def SLIPPAGE : ℚ := 5 / 10

/-- Quote variance as computed in solana-swap-mev.ts lines 144-148; the
warning threshold there is 0.01 and it never blocks execution. -/
def quoteVariance (r : RouterResult) : ℚ :=
  let quotes := r.quoteCompareList.map QuoteCompare.amountOut
  let bestQuote := listMax quotes
  let avgQuote := quotes.sum / (quotes.length : ℚ)
  |bestQuote - avgQuote| / bestQuote

/-- Model of solana-swap-mev.ts `MEVProtection.validateSwapSafety`
(lines 116-170). The source resolves `quote.routerResult || quote`
before the checks; the model takes the resolved router result. Control
flow: price impact in basis points
(`parseFloat(priceImpactPercentage || 0) * 100 > 150`), then an
emptiness-only venue check, then the slippage gate on
`|(toTokenAmount - expectedPrice) / expectedPrice * 100| > 0.5`. The
variance computation only warns. -/
def validateSwapSafety (routerResult : RouterResult) (expectedPrice : ℚ) :
    Except String Unit :=
  let priceImpact := (routerResult.priceImpactPercentage.getD 0) * 100
  if priceImpact > MAX_PRICE_IMPACT_BPS then
    .error "Price impact too high"
  else if routerResult.quoteCompareList.length = 0 then
    .error "No quotes available for comparison"
  else
    let outputAmount := routerResult.toTokenAmount
    let priceDiff := |(outputAmount - expectedPrice) / expectedPrice * 100|
    if priceDiff > SLIPPAGE then
      .error "Output amount differs from expected"
    else
      .ok ()

end SwapMev

/-- Solana instruction shapes the augmentation code can produce or meet.
`setComputeUnitPrice` is the priority fee directive the builders inject
(ComputeBudgetProgram.setComputeUnitPrice); `setComputeUnitLimit` is the
other compute budget directive; `other` stands for any instruction of the
opaque aggregator payload. -/
inductive Instruction where
  | setComputeUnitPrice (microLamports : ℚ)
  | setComputeUnitLimit (units : Nat)
  | other (tag : Nat)
  deriving DecidableEq, Repr

/-- A directive that sets the per-unit priority fee. -/
def Instruction.isPriorityFeeDirective : Instruction → Bool
  | .setComputeUnitPrice _ => true
  | _ => false

/-- A compute budget program directive (either kind). -/
def Instruction.isComputeBudgetDirective : Instruction → Bool
  | .setComputeUnitPrice _ => true
  | .setComputeUnitLimit _ => true
  | _ => false

/-- Number of priority fee directives in an instruction list. -/
def countPriorityFee (l : List Instruction) : Nat :=
  (l.filter Instruction.isPriorityFeeDirective).length

/-- Number of compute budget directives in an instruction list. -/
def countComputeBudget (l : List Instruction) : Nat :=
  (l.filter Instruction.isComputeBudgetDirective).length

/-- The legacy `Transaction` fields touched by the builders: instruction
list, block reference and fee payer. -/
structure LegacyTransaction where
  instructions : List Instruction
  recentBlockhash : String
  feePayer : Option String
  deriving DecidableEq, Repr

namespace SwapMev

/-- Instruction-level effect of
`TransactionBuilder.buildAndSignProtectedTransaction` on the legacy
branch (solana-swap-mev.ts lines 306-344, identically part_007 lines
374-412): decode the payload, refresh the block reference, set the fee
payer, then unconditionally `tx.add` a `setComputeUnitPrice` instruction
carrying the estimated priority fee — the existing instructions are
never inspected for a pre-existing directive. Signing does not change
the instruction list. -/
def buildAndSignProtectedTransaction (decodedTx : LegacyTransaction)
    (priorityFee : ℚ) (freshBlockhash : String) (feePayerPk : String) :
    LegacyTransaction :=
  { instructions := decodedTx.instructions ++ [Instruction.setComputeUnitPrice priorityFee]
    recentBlockhash := freshBlockhash
    feePayer := some feePayerPk }

/-- Instruction-level effect of the priority fee block at the start of
`TransactionBuilder.sendAndConfirmProtectedTransaction`
(solana-swap-mev.ts lines 356-365): for a legacy transaction it
unconditionally `unshift`s another `setComputeUnitPrice` instruction
before serializing and sending. -/
def addPriorityFeeBeforeSend (tx : LegacyTransaction) (priorityFee : ℚ) :
    LegacyTransaction :=
  { tx with instructions := Instruction.setComputeUnitPrice priorityFee :: tx.instructions }

end SwapMev

namespace Part007

/-- CONFIG.MAX_RETRIES / the local MAX_RETRIES of `executeProtectedSwap`
(part_007 line 507, solana-swap-mev.ts line 474). -/
def MAX_RETRIES : Nat := 3

/-- Model of the local `retry` helper of `executeProtectedSwap`
(part_007 lines 508-520, solana-swap-mev.ts lines 475-487): run the
operation; on failure, rethrow when no retries remain, otherwise recurse
with one retry fewer. `attempts n` is the outcome of the operation on
its n-th invocation; the result pairs the total number of invocations
made with the final outcome. -/
def retryGo {α : Type} (attempts : Nat → Except String α) (attempt : Nat) :
    Nat → Nat × Except String α
  | 0 =>
    match attempts attempt with
    | .ok a => (attempt + 1, .ok a)
    | .error e => (attempt + 1, .error e)
  | retries + 1 =>
    match attempts attempt with
    | .ok a => (attempt + 1, .ok a)
    | .error _ => retryGo attempts (attempt + 1) retries

/-- The retry helper at its default budget (`retries = MAX_RETRIES`). -/
def retry {α : Type} (attempts : Nat → Except String α) : Nat × Except String α :=
  retryGo attempts 0 MAX_RETRIES

/-- Externally visible steps of `executeProtectedSwap`, in program
order. The first three involve network calls (aggregator quote endpoint,
RPC fee sampling, aggregator swap endpoint); building also fetches a
block reference and simulates before signing; the last step submits. -/
inductive Event where
  | getTokenInfoCall
  | getPriorityFeeCall
  | getSwapTransactionCall
  | buildAndSignCall
  | sendAndConfirmCall
  deriving DecidableEq, Repr

/-- Environment for one pipeline run: the successful results the
external services would return at each stage. -/
structure PipelineEnv where
  tokenInfo : SwapQuote
  recentFees : List ℚ
  routerResult : RouterResult
  txId : String
  deriving DecidableEq, Repr

/-- Trace model of part_007 `executeProtectedSwap` (lines 502-589),
assuming the external calls themselves succeed (their failure is retried
by `retry`, modeled separately). Program order, as in the source: fetch
token info first, then the honeypot gate on `toToken.isHoneyPot` only,
then `convertAmount`, then the priority fee sample, then the swap
endpoint call, then `validateSwapSafety` on the swap response, then
building/signing and submission. Returns the list of performed steps
together with the outcome. -/
def executeProtectedSwap (amount : Option ℚ) (env : PipelineEnv) :
    List Event × Except String String :=
  let trace0 := [Event.getTokenInfoCall]
  if env.tokenInfo.toToken.isHoneyPot then
    (trace0, .error "Destination token detected as potential honeypot")
  else
    match convertAmount amount env.tokenInfo.fromToken.decimals with
    | .error e => (trace0, .error e)
    | .ok _ =>
      let trace1 := trace0 ++ [Event.getPriorityFeeCall, Event.getSwapTransactionCall]
      match validateSwapSafety (some env.routerResult) with
      | .error e => (trace1, .error e)
      | .ok _ =>
        (trace1 ++ [Event.buildAndSignCall, Event.sendAndConfirmCall], .ok env.txId)

end Part007

namespace SwapMev

/-- Confirmation levels reported by `getSignatureStatus`. -/
inductive ConfirmationStatus where
  | processed
  | confirmed
  | finalized
  deriving DecidableEq, Repr

/-- The fields of a signature status the confirmation loop reads. -/
structure SignatureStatus where
  err : Option String
  confirmationStatus : Option ConfirmationStatus
  deriving DecidableEq, Repr

/-- MAX_TIMEOUT in `sendAndConfirmProtectedTransaction`
(solana-swap-mev.ts line 350): 120000 ms. -/
def MAX_TIMEOUT : Nat := 120000

/-- CHECK_INTERVAL in `sendAndConfirmProtectedTransaction`
(solana-swap-mev.ts line 351): 3000 ms. -/
def CHECK_INTERVAL : Nat := 3000

/-- Number of poll ticks that fit in the timeout window. -/
def maxPollTicks : Nat := MAX_TIMEOUT / CHECK_INTERVAL

/-- The errors the confirmation phase can throw: the fixed timeout
rejection (line 411) or a transaction failure rejection carrying the
reported error (line 401). -/
inductive ConfirmError where
  | timedOut (message : String)
  | failed (message : String)
  deriving DecidableEq, Repr

/-- The fixed message of the timeout rejection (solana-swap-mev.ts line
411). -/
def timeoutMessage : String :=
  "Transaction confirmation timeout - check explorer for final status"

/-- The loop condition for a successful terminal status
(solana-swap-mev.ts lines 395-396). -/
def isConfirmedStatus : Option SignatureStatus → Bool
  | some st =>
      st.confirmationStatus == some ConfirmationStatus.confirmed ||
      st.confirmationStatus == some ConfirmationStatus.finalized
  | none => false

/-- The loop condition for a reported execution error
(solana-swap-mev.ts line 399). -/
def hasErrStatus : Option SignatureStatus → Bool
  | some st => st.err.isSome
  | none => false

/-- The failure rejection message built at solana-swap-mev.ts line 401. -/
def failedMessage (s : Option SignatureStatus) : String :=
  "Transaction failed: " ++ (match s with
    | some st => st.err.getD ""
    | none => "")

/-- Model of the status polling promise (solana-swap-mev.ts lines
385-413): every CHECK_INTERVAL read the signature status; resolve on a
confirmed or finalized status, reject with the failure message on a
reported error, and reject with the fixed timeout message once the
MAX_TIMEOUT window has elapsed. `statuses t` is the status observed at
tick t; the fuel argument counts the remaining ticks of the window. -/
def pollForStatus (statuses : Nat → Option SignatureStatus) :
    Nat → Nat → Except ConfirmError Unit
  | _, 0 => .error (ConfirmError.timedOut timeoutMessage)
  | tick, fuel + 1 =>
    let s := statuses tick
    if isConfirmedStatus s then .ok ()
    else if hasErrStatus s then .error (ConfirmError.failed (failedMessage s))
    else pollForStatus statuses (tick + 1) fuel

/-- The explorer link printed for a transaction id (solana-swap-mev.ts
lines 375 and 440). -/
def explorerUrl (txId : String) : String :=
  "https://solscan.io/tx/" ++ txId

/-- Confirmation-phase model of
`TransactionBuilder.sendAndConfirmProtectedTransaction`
(solana-swap-mev.ts lines 367-443), after the transaction has been
broadcast and a transaction id obtained: on a resolved poll the id is
returned; on any rejection the catch block logs the explorer link again
and rethrows, so the caller receives only the error. The second
component collects the logged lines that mention the transaction id. -/
def sendAndConfirmProtectedTransaction (txId : String)
    (statuses : Nat → Option SignatureStatus) :
    Except ConfirmError String × List String :=
  let sendLogs := ["Transaction sent: " ++ txId, explorerUrl txId]
  match pollForStatus statuses 0 maxPollTicks with
  | .ok _ => (.ok txId, sendLogs)
  | .error e => (.error e, sendLogs ++ [explorerUrl txId])

end SwapMev

/-- The external cryptographic capabilities the request signer consumes
(the crypto-js library, out of scope): an HMAC-SHA256 digest over a
message and key, and a base64 encoder for a digest. -/
structure CryptoOps where
  hmacSHA256 : String → String → List Nat
  base64encode : List Nat → String

/-- The credential environment variables read by the API client. -/
structure Credentials where
  apiKey : String
  secretKey : String
  passphrase : String
  projectId : String
  deriving DecidableEq, Repr

/-- Model of `OKXApi.getHeaders` (part_007 lines 258-272,
solana-swap-mev.ts lines 192-206, and the same shape in part_008): sign
`timestamp + method + path + queryString` with HMAC-SHA256 under the
secret key, base64 encode it, and send it alongside the API key, the
per-request timestamp, the passphrase and the project id. -/
def getHeaders (crypto : CryptoOps) (env : Credentials)
    (timestamp method path queryString : String) : List (String × String) :=
  let stringToSign := timestamp ++ method ++ path ++ queryString
  [("Content-Type", "application/json"),
   ("OK-ACCESS-KEY", env.apiKey),
   ("OK-ACCESS-SIGN", crypto.base64encode (crypto.hmacSHA256 stringToSign env.secretKey)),
   ("OK-ACCESS-TIMESTAMP", timestamp),
   ("OK-ACCESS-PASSPHRASE", env.passphrase),
   ("OK-ACCESS-PROJECT", env.projectId)]

/-- Boolean success test for an `Except` result (mirrors whether the
JavaScript call returned rather than threw). -/
def isOkResult {ε α : Type} : Except ε α → Bool
  | .ok _ => true
  | .error _ => false

/-- Concrete pipeline environment with a 6 percent price impact quote
(the spec scenario value) and otherwise healthy data: neither token
flagged, two comparison venues. -/
def c3Env : Part007.PipelineEnv :=
  { tokenInfo := { fromToken := ⟨"SOL", 9, 1, false⟩, toToken := ⟨"TOK", 6, 1, false⟩ }
    recentFees := [1000]
    routerResult := { priceImpactPercentage := some 6
                      quoteCompareList := [⟨"VenueA", 1⟩, ⟨"VenueB", 1⟩]
                      toTokenAmount := 1 }
    txId := "tx123" }

/-- Concrete healthy pipeline environment: neither token flagged, low
price impact, two comparison venues. -/
def c5Env : Part007.PipelineEnv :=
  { tokenInfo := { fromToken := ⟨"SOL", 9, 1, false⟩, toToken := ⟨"TOK", 6, 1, false⟩ }
    recentFees := [1000]
    routerResult := { priceImpactPercentage := some 0
                      quoteCompareList := [⟨"VenueA", 1⟩, ⟨"VenueB", 1⟩]
                      toTokenAmount := 1 }
    txId := "tx123" }

/-- Concrete pipeline environment whose source token is flagged as a
honeypot while the destination token is not; the quote itself is
healthy. -/
def c10Env : Part007.PipelineEnv :=
  { tokenInfo := { fromToken := ⟨"SCM", 9, 1, true⟩, toToken := ⟨"TOK", 6, 1, false⟩ }
    recentFees := [1000]
    routerResult := { priceImpactPercentage := some 0
                      quoteCompareList := [⟨"VenueA", 1⟩, ⟨"VenueB", 1⟩]
                      toTokenAmount := 1 }
    txId := "tx123" }

/-- Concrete router result with a single comparison venue, zero price
impact and an output amount equal to the expectation. -/
def singletonRouterResult : RouterResult :=
  { priceImpactPercentage := some 0
    quoteCompareList := [⟨"VenueA", 100⟩]
    toTokenAmount := 100 }

/-- Concrete router result with a single venue and an output amount 90
against an expectation of 100 (an 11 percent shortfall). -/
def shortfallRouterResult : RouterResult :=
  { priceImpactPercentage := some 0
    quoteCompareList := [⟨"VenueA", 90⟩]
    toTokenAmount := 90 }

/- ----------------------------------------------------------------- -/
/- Helper lemmas                                                      -/
/- ----------------------------------------------------------------- -/

/-- The retry helper performs at most `retries + 1` invocations. -/
theorem retryGo_count_le {α : Type} (attempts : Nat → Except String α)
    (attempt retries : Nat) :
    (Part007.retryGo attempts attempt retries).1 ≤ attempt + retries + 1 := by
  induction retries generalizing attempt with
  | zero =>
    unfold Part007.retryGo
    cases attempts attempt <;> simp
  | succ r ih =>
    unfold Part007.retryGo
    cases attempts attempt with
    | ok a => simp
    | error e =>
      have h := ih (attempt + 1)
      exact Nat.le_trans h (by omega)

/-- When every invocation fails, the retry helper performs exactly
`retries + 1` invocations and the final outcome is the failure. -/
theorem retryGo_all_fail {α : Type} (attempts : Nat → Except String α)
    (hfail : ∀ n, isOkResult (attempts n) = false)
    (attempt retries : Nat) :
    (Part007.retryGo attempts attempt retries).1 = attempt + retries + 1 ∧
    isOkResult (Part007.retryGo attempts attempt retries).2 = false := by
  induction retries generalizing attempt with
  | zero =>
    unfold Part007.retryGo
    cases h : attempts attempt with
    | ok a => exact absurd (hfail attempt) (by simp [h, isOkResult])
    | error e => simp [isOkResult]
  | succ r ih =>
    unfold Part007.retryGo
    cases h : attempts attempt with
    | ok a => exact absurd (hfail attempt) (by simp [h, isOkResult])
    | error e =>
      have := ih (attempt + 1)
      constructor
      · rw [this.1]; omega
      · exact this.2

/-- With no terminal status ever observed, the polling loop exhausts its
window and rejects with the fixed timeout message. -/
theorem pollForStatus_all_pending
    (statuses : Nat → Option SwapMev.SignatureStatus)
    (hconf : ∀ t, SwapMev.isConfirmedStatus (statuses t) = false)
    (herr : ∀ t, SwapMev.hasErrStatus (statuses t) = false)
    (tick fuel : Nat) :
    SwapMev.pollForStatus statuses tick fuel =
      .error (SwapMev.ConfirmError.timedOut SwapMev.timeoutMessage) := by
  induction fuel generalizing tick with
  | zero => rfl
  | succ f ih =>
    unfold SwapMev.pollForStatus
    simp only [hconf tick, herr tick, Bool.false_eq_true, if_false]
    exact ih (tick + 1)

/- ----------------------------------------------------------------- -/
/- Claim theorems                                                     -/
/- ----------------------------------------------------------------- -/

/-- C1: evaluation of the augmentation chain at a concrete decoded legacy
payload holding no priority fee directive. Build-and-sign appends one
`setComputeUnitPrice` instruction and the send step unshifts another, so
the submitted instruction set holds two priority fee directives and two
compute budget directives, not exactly one of each; repeating the send
step adds a third, so the augmentation is not idempotent either. -/
theorem c1_augmentation_duplicates_directives :
    countPriorityFee (SwapMev.addPriorityFeeBeforeSend
      (SwapMev.buildAndSignProtectedTransaction
        ⟨[Instruction.other 0], "payloadRef", none⟩ 100 "freshRef" "payer")
      100).instructions = 2 ∧
    countComputeBudget (SwapMev.addPriorityFeeBeforeSend
      (SwapMev.buildAndSignProtectedTransaction
        ⟨[Instruction.other 0], "payloadRef", none⟩ 100 "freshRef" "payer")
      100).instructions = 2 ∧
    countPriorityFee (SwapMev.addPriorityFeeBeforeSend
      (SwapMev.addPriorityFeeBeforeSend
        (SwapMev.buildAndSignProtectedTransaction
          ⟨[Instruction.other 0], "payloadRef", none⟩ 100 "freshRef" "payer")
        100) 100).instructions = 3 := by
  refine ⟨rfl, rfl, rfl⟩

/-- C2 counterexample: the solana-swap-mev.ts Safety Validator, cited by
the claim, accepts a quote whose comparison list is a singleton (its
venue check only rejects an empty list), so a singleton comparison list
is not rejected with the venue diversity reason. -/
theorem c2_singleton_accepted_counterexample :
    singletonRouterResult.quoteCompareList.length < Part007.MIN_ROUTE_SPLITS ∧
    SwapMev.validateSwapSafety singletonRouterResult 100 = .ok () := by
  refine ⟨by decide, ?_⟩
  norm_num [SwapMev.validateSwapSafety, SwapMev.MAX_PRICE_IMPACT_BPS,
    SwapMev.SLIPPAGE, singletonRouterResult]

/-- C2 (amended): the part_007 Safety Validator rejects every quote whose
comparison list is shorter than MIN_ROUTE_SPLITS = 2 with the venue
diversity reason whenever the earlier price impact gate did not fire; the
solana-swap-mev.ts variant only rejects an empty comparison list (with
its no-quotes reason), and a singleton passes its venue check. -/
theorem c2_venue_diversity_amended :
    (∀ r : RouterResult, r.quoteCompareList.length < Part007.MIN_ROUTE_SPLITS →
      Part007.priceImpactTooHigh r = false →
      Part007.validateSwapSafety (some r) =
        .error "MEV risk: Insufficient route diversity") ∧
    (∀ (r : RouterResult) (expectedPrice : ℚ),
      r.quoteCompareList = [] →
      (r.priceImpactPercentage.getD 0) * 100 ≤ SwapMev.MAX_PRICE_IMPACT_BPS →
      SwapMev.validateSwapSafety r expectedPrice =
        .error "No quotes available for comparison") := by
  constructor
  · intro r hlen himp
    simp [Part007.validateSwapSafety, himp, hlen]
  · intro r expectedPrice hnil himp
    simp [SwapMev.validateSwapSafety, hnil, not_lt.mpr himp]

/-- C2 witness: the amended venue diversity statement evaluated at a
concrete singleton quote with zero price impact. -/
theorem c2_venue_diversity_amended_witness :
    singletonRouterResult.quoteCompareList.length < Part007.MIN_ROUTE_SPLITS ∧
    Part007.priceImpactTooHigh singletonRouterResult = false ∧
    Part007.validateSwapSafety (some singletonRouterResult) =
      .error "MEV risk: Insufficient route diversity" :=
  ⟨by decide,
    by norm_num [Part007.priceImpactTooHigh, Part007.MAX_PRICE_IMPACT,
      singletonRouterResult],
    c2_venue_diversity_amended.1 singletonRouterResult (by decide)
      (by norm_num [Part007.priceImpactTooHigh, Part007.MAX_PRICE_IMPACT,
        singletonRouterResult])⟩

/-- C4 counterexample: on the spec scenario sample window the fee
estimator of part_007 and part_009 returns 6000, not 4000: the code
scales `max(maxFee, medianFee * multiplier)` by a further 1.5 before
capping, and its cap is MAX_PRIORITY_FEE = 1000000 (there is no separate
5000 cap and no lower clamp). -/
theorem c4_fee_scenario_counterexample :
    Part007.getPriorityFee [1000, 2000, 3000] = 6000 ∧
    Part007.getPriorityFee [1000, 2000, 3000] ≠ 4000 := by
  have h : Part007.getPriorityFee [1000, 2000, 3000] = 6000 := by
    norm_num [Part007.getPriorityFee, Part007.MAX_PRIORITY_FEE,
      Part007.PRIORITY_MULTIPLIER, listMax, List.insertionSort,
      List.orderedInsert, max_def, min_def]
  refine ⟨h, ?_⟩
  rw [h]
  norm_num

/-- C4 (amended): the fee estimator takes the larger of the sample
maximum and the median (ascending sorted element at index floor(n/2))
times the protection multiplier 2, scales that by 1.5, and caps the
result at MAX_PRIORITY_FEE = 1000000 (no lower clamp): the scenario
window [1000, 2000, 3000] therefore yields
min(max(3000, 2000 * 2) * 1.5, 1000000) = 6000, and no estimate ever
exceeds the cap. -/
theorem c4_priority_fee_amended :
    Part007.getPriorityFee [1000, 2000, 3000] =
      min (max 3000 (2000 * Part007.PRIORITY_MULTIPLIER) * (3 / 2))
        Part007.MAX_PRIORITY_FEE ∧
    Part007.getPriorityFee [1000, 2000, 3000] = 6000 ∧
    (∀ fees : List ℚ, Part007.getPriorityFee fees ≤ Part007.MAX_PRIORITY_FEE) := by
  refine ⟨?_, ?_, ?_⟩
  · norm_num [Part007.getPriorityFee, Part007.MAX_PRIORITY_FEE,
      Part007.PRIORITY_MULTIPLIER, listMax, List.insertionSort,
      List.orderedInsert, max_def, min_def]
  · norm_num [Part007.getPriorityFee, Part007.MAX_PRIORITY_FEE,
      Part007.PRIORITY_MULTIPLIER, listMax, List.insertionSort,
      List.orderedInsert, max_def, min_def]
  · intro fees
    unfold Part007.getPriorityFee
    split
    · exact le_rfl
    · exact min_le_right _ _

/-- C6 counterexample: with every quote fetch failing, the retry helper
performs four invocations in total (one initial try plus MAX_RETRIES = 3
retries) before surfacing the failure, so after exactly three
consecutive failures it still attempts a further time and the total
attempt count exceeds three. -/
theorem c6_retry_four_attempts_counterexample :
    Part007.retry (fun _ : Nat =>
      (Except.error "Failed to get quote" : Except String Unit)) =
      (4, Except.error "Failed to get quote") ∧
    Part007.MAX_RETRIES = 3 ∧ ¬ (4 : Nat) ≤ 3 := by
  refine ⟨rfl, rfl, by decide⟩

/-- C6 (amended): the retry helper invokes the operation at most
MAX_RETRIES + 1 = 4 times, and when every invocation fails it surfaces a
terminal failure after exactly MAX_RETRIES + 1 = 4 consecutive failures,
not after 3. -/
theorem c6_retry_bound_amended :
    (∀ (α : Type) (attempts : Nat → Except String α),
      (Part007.retry attempts).1 ≤ Part007.MAX_RETRIES + 1) ∧
    (∀ (α : Type) (attempts : Nat → Except String α),
      (∀ n, isOkResult (attempts n) = false) →
      (Part007.retry attempts).1 = Part007.MAX_RETRIES + 1 ∧
      isOkResult (Part007.retry attempts).2 = false) := by
  constructor
  · intro α attempts
    exact retryGo_count_le attempts 0 Part007.MAX_RETRIES
  · intro α attempts hfail
    have h := retryGo_all_fail attempts hfail 0 Part007.MAX_RETRIES
    exact ⟨h.1, h.2⟩

/-- C6 witness: the amended retry bound evaluated at the all-failures
attempt stream. -/
theorem c6_retry_bound_amended_witness :
    (Part007.retry (fun _ : Nat =>
      (Except.error "Failed to get quote" : Except String Unit))).1 =
      Part007.MAX_RETRIES + 1 ∧
    isOkResult (Part007.retry (fun _ : Nat =>
      (Except.error "Failed to get quote" : Except String Unit))).2 = false :=
  c6_retry_bound_amended.2 Unit
    (fun _ => Except.error "Failed to get quote") (fun _ => rfl)

/-- C8: for every request the OK-ACCESS-SIGN header equals the base64
encoding of the HMAC-SHA256 digest of
`timestamp ++ method ++ path ++ queryString` under the secret key, and
it is sent together with the API key, the per-request timestamp, the
passphrase and the project id headers. -/
theorem c8_request_signing_headers :
    ∀ (crypto : CryptoOps) (env : Credentials)
      (timestamp method path queryString : String),
      (getHeaders crypto env timestamp method path queryString).lookup
          "OK-ACCESS-SIGN" =
        some (crypto.base64encode (crypto.hmacSHA256
          (timestamp ++ method ++ path ++ queryString) env.secretKey)) ∧
      (getHeaders crypto env timestamp method path queryString).lookup
          "OK-ACCESS-KEY" = some env.apiKey ∧
      (getHeaders crypto env timestamp method path queryString).lookup
          "OK-ACCESS-TIMESTAMP" = some timestamp ∧
      (getHeaders crypto env timestamp method path queryString).lookup
          "OK-ACCESS-PASSPHRASE" = some env.passphrase ∧
      (getHeaders crypto env timestamp method path queryString).lookup
          "OK-ACCESS-PROJECT" = some env.projectId := by
  intro crypto env timestamp method path queryString
  refine ⟨rfl, rfl, rfl, rfl, rfl⟩

/-- C3 counterexample: on the spec scenario quote (price impact 6
percent against the 5 percent bound) the part_007 pipeline does reject
with the hard price impact reason, but by then the swap payload endpoint
has already been called: the safety validation runs on the swap
endpoint response, so the swap-payload endpoint is invoked for the very
quote the claim says it is never invoked for. -/
theorem c3_swap_endpoint_called_counterexample :
    (Part007.executeProtectedSwap (some 1) c3Env).2 =
      .error "Sandwich attack risk: Price impact too high" ∧
    Part007.Event.getSwapTransactionCall ∈
      (Part007.executeProtectedSwap (some 1) c3Env).1 := by
  constructor
  · norm_num [Part007.executeProtectedSwap, c3Env, convertAmount,
      Part007.validateSwapSafety, Part007.priceImpactTooHigh,
      Part007.MAX_PRICE_IMPACT]
  · norm_num [Part007.executeProtectedSwap, c3Env, convertAmount,
      Part007.validateSwapSafety, Part007.priceImpactTooHigh,
      Part007.MAX_PRICE_IMPACT]

/-- C3 (amended): for every quote whose price impact exceeds the bound,
the pipeline halts with the hard price impact rejection before building
or signing a transaction and before submission, but only after the swap
payload endpoint has been invoked: validation runs on the swap endpoint
response, so the swap call always precedes the price impact check. -/
theorem c3_price_impact_halts_before_signing_amended :
    ∀ (v : ℚ) (env : Part007.PipelineEnv),
      env.tokenInfo.toToken.isHoneyPot = false →
      0 < v →
      Part007.priceImpactTooHigh env.routerResult = true →
      (Part007.executeProtectedSwap (some v) env).2 =
        .error "Sandwich attack risk: Price impact too high" ∧
      Part007.Event.getSwapTransactionCall ∈
        (Part007.executeProtectedSwap (some v) env).1 ∧
      Part007.Event.buildAndSignCall ∉
        (Part007.executeProtectedSwap (some v) env).1 ∧
      Part007.Event.sendAndConfirmCall ∉
        (Part007.executeProtectedSwap (some v) env).1 := by
  intro v env hhp hv himp
  refine ⟨?_, ?_, ?_, ?_⟩ <;>
    simp [Part007.executeProtectedSwap, hhp, convertAmount, not_le.mpr hv,
      Part007.validateSwapSafety, himp]

/-- C3 witness: the amended statement evaluated at the concrete 6
percent price impact environment. -/
theorem c3_price_impact_halts_before_signing_amended_witness :
    c3Env.tokenInfo.toToken.isHoneyPot = false ∧ (0 : ℚ) < 1 ∧
    Part007.priceImpactTooHigh c3Env.routerResult = true ∧
    (Part007.executeProtectedSwap (some 1) c3Env).2 =
      .error "Sandwich attack risk: Price impact too high" :=
  ⟨by decide, by norm_num,
    by norm_num [Part007.priceImpactTooHigh, Part007.MAX_PRICE_IMPACT, c3Env],
    (c3_price_impact_halts_before_signing_amended 1 c3Env (by decide)
      (by norm_num)
      (by norm_num [Part007.priceImpactTooHigh, Part007.MAX_PRICE_IMPACT,
        c3Env])).1⟩

/-- C5 counterexample: with the nonpositive amount -1 and a healthy
token pair, the part_007 pipeline fails with the invalid amount error,
but the token info network call (the aggregator quote endpoint) has
already been performed before the conversion runs, so the failure does
not precede every network call. -/
theorem c5_network_call_before_invalid_amount_counterexample :
    (Part007.executeProtectedSwap (some (-1)) c5Env).2 =
      .error "Invalid amount" ∧
    Part007.Event.getTokenInfoCall ∈
      (Part007.executeProtectedSwap (some (-1)) c5Env).1 := by
  constructor
  · norm_num [Part007.executeProtectedSwap, c5Env, convertAmount]
  · norm_num [Part007.executeProtectedSwap, c5Env, convertAmount]

/-- C5 (amended): amount conversion rejects every nonpositive or
non-numeric amount with the invalid amount error, and in the pipeline
this failure surfaces before the fee sampling, swap payload, signing and
submission steps — but after the token info quote request, which is a
network call the pipeline performs first. -/
theorem c5_invalid_amount_amended :
    (∀ (a : ℚ) (d : Nat), a ≤ 0 →
      convertAmount (some a) d = .error "Invalid amount") ∧
    (∀ d : Nat, convertAmount none d = .error "Invalid amount") ∧
    (∀ (amount : Option ℚ) (env : Part007.PipelineEnv),
      env.tokenInfo.toToken.isHoneyPot = false →
      (∀ v : ℚ, amount = some v → v ≤ 0) →
      Part007.executeProtectedSwap amount env =
        ([Part007.Event.getTokenInfoCall], .error "Invalid amount")) := by
  refine ⟨?_, ?_, ?_⟩
  · intro a d ha
    simp [convertAmount, ha]
  · intro d
    rfl
  · intro amount env hhp hneg
    cases amount with
    | none => simp [Part007.executeProtectedSwap, hhp, convertAmount]
    | some v =>
      have hv := hneg v rfl
      simp [Part007.executeProtectedSwap, hhp, convertAmount, hv]

/-- C5 witness: the amended statement evaluated at the amount -1 and the
concrete healthy environment. -/
theorem c5_invalid_amount_amended_witness :
    c5Env.tokenInfo.toToken.isHoneyPot = false ∧
    Part007.executeProtectedSwap (some (-1)) c5Env =
      ([Part007.Event.getTokenInfoCall], .error "Invalid amount") :=
  ⟨by decide,
    c5_invalid_amount_amended.2.2 (some (-1)) c5Env (by decide)
      (fun v h => by
        simp only [Option.some.injEq] at h
        rw [← h]
        norm_num)⟩

/-- C7 counterexample: when no terminal status is observed within the
timeout window, the confirmation routine throws the fixed timeout
rejection; the result the caller receives is identical for two distinct
transaction identifiers, so the transaction identifier is not returned
to the caller along with the timeout result (it is only printed). -/
theorem c7_timeout_result_counterexample :
    (SwapMev.sendAndConfirmProtectedTransaction "tx1" (fun _ => none)).1 =
      .error (SwapMev.ConfirmError.timedOut SwapMev.timeoutMessage) ∧
    (SwapMev.sendAndConfirmProtectedTransaction "tx2" (fun _ => none)).1 =
      (SwapMev.sendAndConfirmProtectedTransaction "tx1" (fun _ => none)).1 ∧
    "tx1" ≠ "tx2" := by
  refine ⟨rfl, rfl, by decide⟩

/-- C7 (amended): when confirmation polling observes no terminal status
within the maximum timeout window, the routine throws the timeout
rejection — which is distinct from every transaction-failed rejection —
and the transaction identifier is printed (the explorer link appears in
the log output) but is not part of the result the caller receives. -/
theorem c7_timeout_amended :
    ∀ (txId : String) (statuses : Nat → Option SwapMev.SignatureStatus),
      (∀ t, SwapMev.isConfirmedStatus (statuses t) = false) →
      (∀ t, SwapMev.hasErrStatus (statuses t) = false) →
      (SwapMev.sendAndConfirmProtectedTransaction txId statuses).1 =
        .error (SwapMev.ConfirmError.timedOut SwapMev.timeoutMessage) ∧
      (∀ m : String, SwapMev.ConfirmError.timedOut SwapMev.timeoutMessage ≠
        SwapMev.ConfirmError.failed m) ∧
      SwapMev.explorerUrl txId ∈
        (SwapMev.sendAndConfirmProtectedTransaction txId statuses).2 := by
  intro txId statuses hconf herr
  have hp := pollForStatus_all_pending statuses hconf herr 0 SwapMev.maxPollTicks
  refine ⟨?_, ?_, ?_⟩
  · simp [SwapMev.sendAndConfirmProtectedTransaction, hp]
  · intro m h
    exact SwapMev.ConfirmError.noConfusion h
  · simp [SwapMev.sendAndConfirmProtectedTransaction, hp]

/-- C7 witness: the amended statement evaluated at the never-resolving
status stream. -/
theorem c7_timeout_amended_witness :
    SwapMev.isConfirmedStatus none = false ∧
    SwapMev.hasErrStatus none = false ∧
    (SwapMev.sendAndConfirmProtectedTransaction "abc" (fun _ => none)).1 =
      .error (SwapMev.ConfirmError.timedOut SwapMev.timeoutMessage) :=
  ⟨rfl, rfl,
    (c7_timeout_amended "abc" (fun _ => none) (fun _ => rfl) (fun _ => rfl)).1⟩

/-- C9: the solana-swap-mev.ts Safety Validator enforces a hard slippage
gate absent from the four spec checks: whenever the quoted output
differs from the caller supplied expectation by more than the 0.5
percent slippage setting it throws, even when the price impact check,
the venue check and the variance warning all pass (the honeypot gate
lives outside this validator and is not consulted here). -/
theorem c9_slippage_gate_rejects :
    ∀ (r : RouterResult) (expectedPrice : ℚ),
      (r.priceImpactPercentage.getD 0) * 100 ≤ SwapMev.MAX_PRICE_IMPACT_BPS →
      r.quoteCompareList ≠ [] →
      SwapMev.quoteVariance r ≤ 1 / 100 →
      |(r.toTokenAmount - expectedPrice) / expectedPrice * 100| >
        SwapMev.SLIPPAGE →
      SwapMev.validateSwapSafety r expectedPrice =
        .error "Output amount differs from expected" := by
  intro r expectedPrice himp hne hvar hdiff
  have hlen : ¬ r.quoteCompareList.length = 0 := by
    simpa [List.length_eq_zero] using hne
  simp [SwapMev.validateSwapSafety, not_lt.mpr himp, hlen, hdiff]

/-- C9 witness: the slippage gate evaluated at a quote whose output of
90 falls 10 percent short of the expected 100 while every other check
passes. -/
theorem c9_slippage_gate_rejects_witness :
    (shortfallRouterResult.priceImpactPercentage.getD 0) * 100 ≤
      SwapMev.MAX_PRICE_IMPACT_BPS ∧
    shortfallRouterResult.quoteCompareList ≠ [] ∧
    SwapMev.quoteVariance shortfallRouterResult ≤ 1 / 100 ∧
    |(shortfallRouterResult.toTokenAmount - 100) / 100 * 100| >
      SwapMev.SLIPPAGE ∧
    SwapMev.validateSwapSafety shortfallRouterResult 100 =
      .error "Output amount differs from expected" :=
  ⟨by norm_num [shortfallRouterResult, SwapMev.MAX_PRICE_IMPACT_BPS],
    by decide,
    by norm_num [SwapMev.quoteVariance, listMax, shortfallRouterResult],
    by norm_num [shortfallRouterResult, SwapMev.SLIPPAGE],
    c9_slippage_gate_rejects shortfallRouterResult 100
      (by norm_num [shortfallRouterResult, SwapMev.MAX_PRICE_IMPACT_BPS])
      (by decide)
      (by norm_num [SwapMev.quoteVariance, listMax, shortfallRouterResult])
      (by norm_num [shortfallRouterResult, SwapMev.SLIPPAGE])⟩

/-- C10: only the destination token honeypot flag gates execution in
part_007 `executeProtectedSwap`: when the source token is flagged and
the destination token is not, and the remaining stages succeed, the
pipeline requests the swap payload, builds and signs, and completes,
with no honeypot rejection — even though the source token flag was
fetched and is available in the token info. -/
theorem c10_only_destination_honeypot_gates :
    ∀ (v : ℚ) (env : Part007.PipelineEnv),
      env.tokenInfo.fromToken.isHoneyPot = true →
      env.tokenInfo.toToken.isHoneyPot = false →
      0 < v →
      Part007.validateSwapSafety (some env.routerResult) = .ok () →
      (Part007.executeProtectedSwap (some v) env).2 = .ok env.txId ∧
      Part007.Event.getSwapTransactionCall ∈
        (Part007.executeProtectedSwap (some v) env).1 ∧
      Part007.Event.buildAndSignCall ∈
        (Part007.executeProtectedSwap (some v) env).1 := by
  intro v env hfrom hto hv hval
  refine ⟨?_, ?_, ?_⟩ <;>
    simp [Part007.executeProtectedSwap, hto, convertAmount, not_le.mpr hv, hval]

/-- C10 witness: the statement evaluated at an environment whose source
token is flagged as a honeypot while the destination token is clean. -/
theorem c10_only_destination_honeypot_gates_witness :
    c10Env.tokenInfo.fromToken.isHoneyPot = true ∧
    c10Env.tokenInfo.toToken.isHoneyPot = false ∧
    Part007.validateSwapSafety (some c10Env.routerResult) = .ok () ∧
    (Part007.executeProtectedSwap (some 1) c10Env).2 = .ok c10Env.txId :=
  ⟨by decide, by decide,
    by norm_num [Part007.validateSwapSafety, Part007.priceImpactTooHigh,
      Part007.MAX_PRICE_IMPACT, Part007.MIN_ROUTE_SPLITS, c10Env],
    (c10_only_destination_honeypot_gates 1 c10Env (by decide) (by decide)
      (by norm_num)
      (by norm_num [Part007.validateSwapSafety, Part007.priceImpactTooHigh,
        Part007.MAX_PRICE_IMPACT, Part007.MIN_ROUTE_SPLITS, c10Env])).1⟩

end DexPipeline
